import Mathlib

/-!
Verification development for the SciFiReaders microscopy file decoders
(MRC 4D-STEM reader, Igor .ibw reader, WSxM reader family).

The Python sources are shallowly embedded: every definition below mirrors a
function (or a cited slice of a function) from

  SciFiReaders/readers/microscopy/em/tem/mrc_reader.py
  SciFiReaders/readers/microscopy/spm/afm/igor_ibw.py
  SciFiReaders/readers/microscopy/spm/afm/wsxm.py

Floats are modelled as rationals, numpy arrays as lists (values) together
with explicit shape lists, Python ordered dicts as association lists with
update-in-place-or-append assignment, and Python object aliasing (where it
is load-bearing, in the WSxM 1D merge) as an explicit heap of object ids.
Fallible code returns Except, with the error string naming the Python
exception being modelled.
-/

namespace SciFiReaders

/-! ### Python ordered dictionaries as association lists -/

/-- Membership test for a Python dict modelled as an association list. -/
def pyMem {α : Type} (d : List (String × α)) (k : String) : Bool :=
  d.any (fun p => p.1 = k)

/-- Python dict assignment: update the value in place if the key exists,
otherwise append the new binding at the end (Python insertion order). -/
def pySet {α : Type} (d : List (String × α)) (k : String) (v : α) :
    List (String × α) :=
  match d with
  | [] => [(k, v)]
  | p :: rest => if p.1 = k then (k, v) :: rest else p :: pySet rest k v

/-- Python dict lookup, returning none when the key is absent. -/
def pyGet? {α : Type} (d : List (String × α)) (k : String) : Option α :=
  match d with
  | [] => none
  | p :: rest => if p.1 = k then some p.2 else pyGet? rest k

/-- Total lookup with a default, for places where the Python code only
reads keys it has itself inserted. -/
def pyGetD {α : Type} (d : List (String × α)) (k : String) (v0 : α) : α :=
  (pyGet? d k).getD v0

/-- Key list of a Python dict, in insertion order. -/
def pyKeys {α : Type} (d : List (String × α)) : List String :=
  d.map Prod.fst

/-! ### Numpy primitives used by the readers -/

/-- Insert a rational into a sorted list, keeping it sorted. -/
def insertSorted (q : ℚ) : List ℚ → List ℚ
  | [] => [q]
  | x :: xs => if q ≤ x then q :: x :: xs else x :: insertSorted q xs

/-- Model of numpy.unique: the sorted list of distinct values of a column. -/
def npUnique (xs : List ℚ) : List ℚ :=
  (xs.foldr insertSorted []).dedup

/-- Model of numpy.arange(n) * scale, the arrays the MRC reader attaches as
dimension values. -/
def npArange (n : Nat) (scale : ℚ) : List ℚ :=
  (List.range n).map (fun i => (i : ℚ) * scale)

/-- Model of numpy.linspace(a, b, n, endpoint=True). Only the length of
these arrays matters to the claims; the values follow numpy's formula. -/
def linspace (a b : ℚ) (n : Nat) : List ℚ :=
  if n ≤ 1 then List.replicate n a
  else (List.range n).map (fun i => a + (b - a) * (i : ℚ) / ((n : ℚ) - 1))

/-- Python's int(np.abs(x)) on a rational: truncation of the absolute
value |num|/den (the floor, since the argument is non-negative). -/
def pyIntAbs (q : ℚ) : Nat :=
  q.num.natAbs / q.den

/-! ### The external dataset sink (sidpy)

The sidpy Dataset container is an external collaborator of the decoders
(out of scope for the sources); only the interface the decoders rely on is
modelled here. -/

/-- Modelled from the spec: a labeled N-D array record as produced by the
external dataset sink — a dense array (only its shape is tracked), one
value sequence per axis, and the record's reported unit. -/
structure DSet where
  shape : List Nat
  axes : List (List ℚ)
  unit : String
deriving DecidableEq, Repr

/-- Default axis that the sink attaches to dimension i at construction
time: the plain index sequence 0..n-1. -/
def defaultAxis (n : Nat) : List ℚ :=
  (List.range n).map (fun i => (i : ℚ))

/-- Modelled from the spec: sidpy.Dataset.from_array. Building a dataset
from an absent array (Python None, as left behind by a failed reshape)
fails in the sink; from a real array it yields a record with one default
axis per dimension. -/
def sidpyFromArray : Option (List Nat) → Except String DSet
  | none => Except.error "sink error: cannot build a chunked dataset from data=None"
  | some shape =>
      Except.ok { shape := shape, axes := shape.map defaultAxis, unit := "" }

/-- Modelled from the spec: sidpy set_dimension replaces the value sequence
of one axis. -/
def dsSetDim (d : DSet) (i : Nat) (vals : List ℚ) : DSet :=
  { d with axes := d.axes.set i vals }

/-- sidpy from_array for an array that is always present (used by readers
that construct their arrays directly). -/
def dsOfShape (shape : List Nat) (unit : String) : DSet :=
  { shape := shape, axes := shape.map defaultAxis, unit := unit }

/-! ### MRCReader (mrc_reader.py)

MRCReader.read is embedded over the inputs it consumes from the mrcfile
memory map: the indexed extended header (a mapping from field label to the
per-frame column of values) and the shape of the raw data block
(number of frames x detector rows x detector columns). -/

/-- Inputs of MRCReader.read: the FEI indexed extended header columns and
the shape of the memory-mapped data block. -/
structure MrcFile where
  extHeader : List (String × List ℚ)
  nFrames : Nat
  detU : Nat
  detV : Nat

/-- Column of the extended header for one field label
(extended_header[label]). -/
def mrcCol (f : MrcFile) (label : String) : List ℚ :=
  pyGetD f.extHeader label []

/-- Embedding of MRCReader.read. Returns the metadata dictionary stored on
the reader instance (None when the call raises before reaching the
metadata assignment) together with the result: the Channel_000 mapping on
success, or the propagated Python error.

Faithful control flow notes: an unrecognized handedness only prints and
leaves reshape_target unbound, so the subsequent np.reshape raises a
NameError that the except ValueError handler does not catch; a buffer/shape
mismatch raises ValueError which IS caught, leaving self.data = None, and
the None array is then handed to the sink. The camera pixel scale is the
sole element of the np.unique column (the code indexes
camera_pixel_sizes[0] of the unique array; the claims only exercise
constant columns, modelled by taking the first unique value). -/
def mrcRead (f : MrcFile) (handedness : String) (scanPixelSize : Option ℚ) :
    Option (List (String × List ℚ)) × Except String (List (String × DSet)) :=
  let sizes : List ℚ :=
    npUnique (mrcCol f "Scan size right") ++ npUnique (mrcCol f "Scan size left") ++
    npUnique (mrcCol f "Scan size top") ++ npUnique (mrcCol f "Scan size bottom")
  let yShape : Nat := pyIntAbs (sizes.getD 0 0 - sizes.getD 1 0)
  let xShape : Nat := pyIntAbs (sizes.getD 2 0 - sizes.getD 3 0)
  let reshapeTarget : Option (List Nat) :=
    if handedness = "right" then some [xShape, yShape, f.detU, f.detV]
    else if handedness = "left" then some [yShape, xShape, f.detU, f.detV]
    else none
  match reshapeTarget with
  | none =>
      (none, Except.error "NameError: cannot access local variable reshape_target")
  | some target =>
      let data : Option (List Nat) :=
        if target.foldl (fun a b => a * b) 1 = f.nFrames * f.detU * f.detV then
          some target
        else none
      let cameraU : ℚ := (npUnique (mrcCol f "Pixel size X")).getD 0 0 * (1 / 10 ^ 10)
      let cameraV : ℚ := (npUnique (mrcCol f "Pixel size Y")).getD 0 0 * (1 / 10 ^ 10)
      let scanScale : ℚ :=
        match scanPixelSize with
        | some s => if s = 0 then 1 else s * 10 ^ 10
        | none => 1
      let metadata : List (String × List ℚ) :=
        f.extHeader.map (fun kv => (kv.1, npUnique kv.2))
      (some metadata,
        Except.map
          (fun ds0 =>
            let ds1 := dsSetDim ds0 0 (npArange (ds0.shape.getD 0 0) scanScale)
            let ds2 := dsSetDim ds1 1 (npArange (ds1.shape.getD 1 0) scanScale)
            let ds3 := dsSetDim ds2 2 (npArange (ds2.shape.getD 2 0) cameraU)
            let ds4 := dsSetDim ds3 3 (npArange (ds3.shape.getD 3 0) cameraV)
            [("Channel_000", ds4)])
          (sidpyFromArray data))

/-- Shape of the Channel_000 array produced by an MRC read, when the read
succeeds. -/
def mrcShape (f : MrcFile) (handedness : String) : Option (List Nat) :=
  match (mrcRead f handedness none).2 with
  | Except.ok out => (pyGet? out "Channel_000").map DSet.shape
  | Except.error _ => none

/-- Concrete MRC file for the handedness claims: constant extended-header
columns declaring right-left = 4, top-bottom = 3, detector frames 2 x 2,
and 12 frames in the buffer (= 4*3, a complete scan). -/
def exMrc : MrcFile :=
  { extHeader :=
      [("Scan size right", [4]), ("Scan size left", [0]),
       ("Scan size top", [3]), ("Scan size bottom", [0]),
       ("Pixel size X", [1]), ("Pixel size Y", [1])],
    nFrames := 12, detU := 2, detV := 2 }

/-- The same header geometry but a truncated buffer: only 10 detector
frames were written although the header declares a 4 x 3 scan. -/
def exMrcTrunc : MrcFile :=
  { extHeader :=
      [("Scan size right", [4]), ("Scan size left", [0]),
       ("Scan size top", [3]), ("Scan size bottom", [0]),
       ("Pixel size X", [1]), ("Pixel size Y", [1])],
    nFrames := 10, detU := 2, detV := 2 }

/-! ### IgorIBWReader (igor_ibw.py), force-curve branch

IgorIBWReader.read is embedded over the inputs it consumes from the loaded
.ibw wave: the cleaned channel-label and default-unit lists produced by
_get_chan_labels, and the 2-D force-curve data matrix wData (a 3-D wData
takes the image-stack branch instead, so the force branch always sees a
2-D array that np.atleast_3d extends with a trailing axis of length 1). -/

/-- Inputs of the force-curve branch of IgorIBWReader.read. The data
matrix has shape (points, chans); val r c is the sample at row r,
channel c. -/
structure IbwForce where
  points : Nat
  chans : Nat
  val : Nat → Nat → ℚ
  labels : List String
  units : List String

/-- Column c of the force-curve matrix (images[:, c, 0] after
np.atleast_3d, squeezed to one dimension). -/
def igorCol (w : IbwForce) (c : Nat) : List ℚ :=
  (List.range w.points).map (fun r => w.val r c)

/-- Channel labels after the layer-0 null-set trim: when the last data
dimension disagrees with the label count the first label is dropped
(igor_ibw.py line 307). -/
def igorEffLabels (w : IbwForce) : List String :=
  if w.chans ≠ w.labels.length then w.labels.drop 1 else w.labels

/-- Units after the same trim. -/
def igorEffUnits (w : IbwForce) : List String :=
  if w.chans ≠ w.labels.length then w.units.drop 1 else w.units

/-- The spectroscopic axis values chosen by IgorIBWReader.read: the ZSnsr
column, else the Raw column, else np.arange(images.shape[2]) where
images.shape after np.atleast_3d is (points, chans, 1). -/
def igorSpecData (w : IbwForce) : List ℚ :=
  let labels := igorEffLabels w
  match labels.findIdx? (fun l => l = "ZSnsr") with
  | some ci => igorCol w ci
  | none =>
      match labels.findIdx? (fun l => l = "Raw") with
      | some ci => igorCol w ci
      | none =>
          let shape3 : List Nat := [w.points, w.chans, 1]
          defaultAxis (shape3.getD 2 0)

/-- Embedding of the force-curve branch of IgorIBWReader.read: one record
per channel, each a 1-D dataset of the per-channel column with the chosen
spectroscopic axis installed as dimension 0. The function returns a plain
Python list (the source returns the datasets list, not a keyed mapping). -/
def igorForceRead (w : IbwForce) : List DSet :=
  let units := igorEffUnits w
  let specData := igorSpecData w
  (List.range w.chans).map (fun c =>
    let d0 := dsOfShape [w.points] (units.getD c "")
    dsSetDim d0 0 specData)

/-! ### WSxM header values

WSxM headers are colon-delimited text blocks parsed by _wsxm_readheader
into a dict from "field [Section]" keys to string values. The reader code
consumes each value either whole, or split on single spaces with float()
applied to chosen tokens. Values are embedded as token lists; each token
carries its text and the rational that Python's float() would produce on
it (meaningful only for tokens the code converts). -/

/-- One space-separated token of a WSxM header value. -/
structure Tok where
  num : ℚ
  str : String
deriving DecidableEq, Repr

/-- A WSxM header value: its list of space-separated tokens. -/
abbrev HVal := List Tok

/-- Default token (never produced by a parse; used only for total getD
access at indices the Python code guards). -/
def tokD : Tok := { num := 0, str := "" }

/-- value.split(' ')[0] of a header value. -/
def tokFirst (v : HVal) : Tok := v.getD 0 tokD

/-- value.split(' ')[-1] of a header value. -/
def tokLast (v : HVal) : Tok := v.getD (v.length - 1) tokD

/-- The whole text of a header value (the string the tokens were split
from). -/
def joinTokens : List Tok → String
  | [] => ""
  | [t] => t.str
  | t :: rest => t.str ++ " " ++ joinTokens rest

/-- A parsed WSxM header: ordered dict from "field [Section]" to value. -/
abbrev Header := List (String × HVal)

/-- Python dict lookup on a header: raises KeyError when the field is
absent (the fail-loudly behavior for unsupported sub-variants). -/
def hget (d : Header) (k : String) : Except String HVal :=
  match pyGet? d k with
  | some v => Except.ok v
  | none => Except.error ("KeyError: " ++ k)

/-- Python's int() on a parsed numeric header value: truncation toward
zero, clipped at 0 (counts are non-negative integers in all supported
files). -/
def pyToNat (q : ℚ) : Nat := q.num.toNat / q.den

/-- The DATA_TYPES table of WSxMFuncs: binary point length and struct
type code per declared data format. -/
def wsxmDataTypes : List (String × (Nat × String)) :=
  [("short", (2, "h")), ("short-data", (2, "h")), ("unsignedshort", (2, "H")),
   ("integer-data", (4, "i")), ("signedinteger", (4, "i")),
   ("float-data", (4, "f")), ("double", (8, "d"))]

/-- DATA_TYPES[data_format]: a missing format key raises KeyError. -/
def wsxmDataTypesGet (k : String) : Except String (Nat × String) :=
  match pyGet? wsxmDataTypes k with
  | some v => Except.ok v
  | none => Except.error ("KeyError: " ++ k)

/-! ### WSxMFuncs._wsxm_readimg -/

/-- The per-channel image dictionary built by _wsxm_readimg: calibrated
image values (kept flat; the 2-D shape is (xNum, yNum)), the X/Y axis
arrays, the units entry, and the calibration actually applied. -/
structure ImgChan where
  zvals : List ℚ
  xData : List ℚ
  yData : List ℚ
  zUnit : String
  xUnit : String
  yUnit : String
  xNum : Nat
  yNum : Nat
  chanLabel : String
  zCalib : ℚ
  header : Header
deriving DecidableEq

/-- Embedding of WSxMFuncs._wsxm_readimg over a parsed header and the
unpacked binary samples that follow it. Mirrors the source order: header
lookups (each a potential KeyError), axis construction, binary unpack and
reshape, the z_len == 0 calibration special case, and the Amplitude
fake-unit correction which divides the calibration by Conversion Factor
00 and forces the unit to V whenever the channel is labelled Amplitude
and token [1] of the Z Amplitude value is not V. -/
def wsxm_readimg (header : Header) (samples : List ℚ) : Except String ImgChan := do
  let dataFormat ← hget header "Image Data Type [General Info]"
  let chanLabelV ← hget header "Acquisition channel [General Info]"
  let chanLabel := joinTokens chanLabelV
  let _lineRate ← hget header "X-Frequency [Control]"
  let xNumV ← hget header "Number of rows [General Info]"
  let yNumV ← hget header "Number of columns [General Info]"
  let xLenV ← hget header "X Amplitude [Control]"
  let yLenV ← hget header "Y Amplitude [Control]"
  let zLenV ← hget header "Z Amplitude [General Info]"
  let zMinV ← hget header "Minimum [Miscellaneous]"
  let zMaxV ← hget header "Maximum [Miscellaneous]"
  let xNum := pyToNat (tokFirst xNumV).num
  let yNum := pyToNat (tokFirst yNumV).num
  let xLen := (tokFirst xLenV).num
  let yLen := (tokFirst yLenV).num
  let zLen := (tokFirst zLenV).num
  let zMin := (tokFirst zMinV).num
  let zMax := (tokFirst zMaxV).num
  let offs ← (if pyMem header "X starting offset [General Info]" then do
      let a ← hget header "X starting offset [General Info]"
      let b ← hget header "Y starting offset [General Info]"
      Except.ok ((tokFirst a).num, (tokFirst b).num)
    else Except.ok ((0 : ℚ), (0 : ℚ)))
  let xData := linspace offs.1 (xLen + offs.1) xNum
  let yData := linspace (yLen + offs.2) offs.2 yNum
  let _pt ← wsxmDataTypesGet (joinTokens dataFormat)
  let chArray := samples.take (xNum * yNum)
  if chArray.length ≠ xNum * yNum then
    Except.error "ValueError: cannot reshape array"
  else do
    let zCalib0 : ℚ := if zLen = 0 then 1 else zLen / (zMax - zMin)
    let zUnit0 := (tokLast zLenV).str
    let cal ← (if chanLabel = "Amplitude" then do
        let t1 ← (match zLenV[1]? with
          | some t => Except.ok t
          | none => Except.error "IndexError: list index out of range")
        if t1.str ≠ "V" then do
          let cf ← hget header "Conversion Factor 00 [General Info]"
          Except.ok (zCalib0 / (tokFirst cf).num, "V")
        else Except.ok (zCalib0, zUnit0)
      else Except.ok (zCalib0, zUnit0))
    Except.ok
      { zvals := chArray.map (fun s => cal.1 * s),
        xData := xData, yData := yData,
        zUnit := cal.2,
        xUnit := (tokLast xLenV).str,
        yUnit := (tokLast yLenV).str,
        xNum := xNum, yNum := yNum,
        chanLabel := chanLabel, zCalib := cal.1,
        header := header }

/-! ### WSxMFuncs._wsxm_readmovie (calibration and frame assembly) -/

/-- The per-channel movie dictionary built by _wsxm_readmovie: calibrated
frame stack (kept flat; the 3-D shape is (chanNum, yNum, xNum)), axis
arrays, units, and the calibration applied. -/
structure MovChan where
  zz : List ℚ
  xData : List ℚ
  yData : List ℚ
  zData : List ℚ
  zzUnit : String
  xUnit : String
  yUnit : String
  xNum : Nat
  yNum : Nat
  chanNum : Nat
  chanLabel : String
  zCalib : ℚ
  header : Header
deriving DecidableEq

/-- Embedding of WSxMFuncs._wsxm_readmovie over a parsed header and the
unpacked binary samples. Carries the same z_len == 0 special case and the
same Amplitude fake-unit correction as _wsxm_readimg; the frame axis is a
plain linspace over frame numbers. -/
def wsxm_readmovie (header : Header) (samples : List ℚ) : Except String MovChan := do
  let dataFormat ← hget header "Image Data Type [General Info]"
  let chanLabelV ← hget header "Acquisition channel [General Info]"
  let chanLabel := joinTokens chanLabelV
  let xNumV ← hget header "Number of rows [General Info]"
  let yNumV ← hget header "Number of columns [General Info]"
  let chanNumV ← hget header "Number of Frames [General Info]"
  let xLenV ← hget header "X Amplitude [Control]"
  let yLenV ← hget header "Y Amplitude [Control]"
  let zLenV ← hget header "Z Amplitude [General Info]"
  let zMinV ← hget header "Minimum [Miscellaneous]"
  let zMaxV ← hget header "Maximum [Miscellaneous]"
  let xNum := pyToNat (tokFirst xNumV).num
  let yNum := pyToNat (tokFirst yNumV).num
  let chanNum := pyToNat (tokFirst chanNumV).num
  let xLen := (tokFirst xLenV).num
  let yLen := (tokFirst yLenV).num
  let zLen := (tokFirst zLenV).num
  let zMin := (tokFirst zMinV).num
  let zMax := (tokFirst zMaxV).num
  let xData := linspace 0 xLen xNum
  let yData := linspace yLen 0 yNum
  let zData := linspace 0 (chanNum : ℚ) chanNum
  let _pt ← wsxmDataTypesGet (joinTokens dataFormat)
  let zCalib0 : ℚ := if zLen = 0 then 1 else zLen / (zMax - zMin)
  let zUnit0 := (tokLast zLenV).str
  let cal ← (if chanLabel = "Amplitude" then do
      let t1 ← (match zLenV[1]? with
        | some t => Except.ok t
        | none => Except.error "IndexError: list index out of range")
      if t1.str ≠ "V" then do
        let cf ← hget header "Conversion Factor 00 [General Info]"
        Except.ok (zCalib0 / (tokFirst cf).num, "V")
      else Except.ok (zCalib0, zUnit0)
    else Except.ok (zCalib0, zUnit0))
  let taken := samples.take (chanNum * (xNum * yNum))
  if taken.length ≠ chanNum * (xNum * yNum) then
    Except.error "ValueError: cannot reshape array"
  else
    Except.ok
      { zz := taken.map (fun s => cal.1 * s),
        xData := xData, yData := yData, zData := zData,
        zzUnit := cal.2,
        xUnit := (tokLast xLenV).str,
        yUnit := (tokLast yLenV).str,
        xNum := xNum, yNum := yNum, chanNum := chanNum,
        chanLabel := chanLabel, zCalib := cal.1,
        header := header }

/-! ### WSxM2DReader.read -/

/-- Python's f-string key "Channel_{n:03d}": the decimal representation of
n left-padded with zeros to at least three characters. -/
def pad3 (n : Nat) : String :=
  let s := Nat.repr n
  String.mk ("Channel_".toList ++ (List.replicate (3 - s.length) '0' ++ s.toList))

/-- One file of a WSxM group as consumed by the readers: its extension,
its parsed header (none models a file whose leading bytes contain no
Image header size line, on which _wsxm_readheader raises), and the
unpacked binary samples following the header. -/
structure WFile where
  ext : String
  header : Option Header
  samples : List ℚ

/-- Embedding of _wsxm_readheader's outcome on a file: the parsed dict,
or the NameError raised when no Image header size line was found. -/
def wsxm_readheaderE (f : WFile) : Except String Header :=
  match f.header with
  | some h => Except.ok h
  | none => Except.error "NameError: cannot access local variable header_size"

/-- One iteration of the WSxM2DReader.read loop for a non-gsi file,
together with the number of file handles left open by the iteration.
The source opens the file, reads the header, looks up the acquisition
channel, runs _wsxm_readimg and only then closes the handle; every raised
exception therefore leaves the handle open (count 1). On success the
dataset is built from np.flip(Z.T) (shape (yNum, xNum)) with the X array
installed on dimension 0 and the Y array on dimension 1. -/
def wsxm2DDecodeCore (f : WFile) : Except String DSet := do
  let hd ← wsxm_readheaderE f
  let _chanV ← hget hd "Acquisition channel [General Info]"
  let chan ← wsxm_readimg hd f.samples
  pure (dsSetDim (dsSetDim (dsOfShape [chan.yNum, chan.xNum] chan.zUnit) 0 chan.xData)
    1 chan.yData)

/-- The same decode with its handle accounting: the file is opened before
the header read and closed only after _wsxm_readimg returns, so each of
the three possible exceptions (header-size NameError, channel-label
KeyError, any _wsxm_readimg error) leaves the one handle open, while
success closes it. -/
def wsxm2DDecodeFile (f : WFile) : Except String DSet × Nat :=
  match wsxm2DDecodeCore f with
  | Except.error e => (Except.error e, 1)
  | Except.ok ds => (Except.ok ds, 0)

/-- The WSxM2DReader.read loop over a discovered file group: gsi files are
skipped, every other file is decoded and stored under the zero-padded
sequential channel key; the first exception aborts the read, leaving that
file's handle open. Returns the result and the number of handles still
open when the call exits. -/
def wsxm2DReadAux : List WFile → Nat → List (String × DSet) →
    Except String (List (String × DSet)) × Nat
  | [], _, acc => (Except.ok acc, 0)
  | f :: rest, n, acc =>
      if f.ext = ".gsi" then wsxm2DReadAux rest n acc
      else
        match wsxm2DDecodeFile f with
        | (Except.error e, leaked) => (Except.error e, leaked)
        | (Except.ok ds, _) => wsxm2DReadAux rest (n + 1) (pySet acc (pad3 n) ds)

/-- Embedding of WSxM2DReader.read over the discovered group. -/
def wsxm2DRead (files : List WFile) : Except String (List (String × DSet)) × Nat :=
  wsxm2DReadAux files 0 []

/-- Number of non-gsi files in a group (the channels the 2D reader
emits when every file decodes). -/
def nonGsiCount (files : List WFile) : Nat :=
  (files.filter (fun f => f.ext ≠ ".gsi")).length

/-! ### WSxMFuncs._wsxm_get_common_files -/

/-- Char-list test that p is an initial segment of s
(str.startswith). -/
def listStarts : List Char → List Char → Bool
  | [], _ => true
  | _ :: _, [] => false
  | a :: as, b :: bs => a = b && listStarts as bs

/-- First match position of the regex \_\d{4} in a char list: the index
of an underscore followed by at least four decimal digits
(re.search scans left to right). -/
def findRunIdx : List Char → Nat → Option Nat
  | [], _ => none
  | c :: rest, i =>
      if c = '_' ∧ (rest.take 4).length = 4 ∧ (rest.take 4).all Char.isDigit = true then
        some i
      else findRunIdx rest (i + 1)

/-- Embedding of WSxMFuncs._wsxm_get_common_files with ext=None over the
file names present in the directory (all entries are regular files). When
the name carries no 4-digit run index the requested file alone is
returned; otherwise all sibling names sharing the prefix up through the
index are collected in listing order, and list.remove plus insert(0)
moves the requested name to the front. none models the ValueError that
list.remove would raise if the requested name were not among the matches
(impossible when the listing contains it, since a string starts with its
own prefix). -/
def wsxmCommonFiles (filename : String) (listing : List String) :
    Option (List String) :=
  match findRunIdx filename.toList 0 with
  | none => some [filename]
  | some i =>
      let com := filename.toList.take (i + 5)
      let files := listing.filter (fun nm => listStarts com nm.toList)
      if files.contains filename then some (filename :: files.erase filename)
      else none

/-! ### WSxM 1D curves: the merge performed by WSxM1DReader.read

The merge semantics of WSxM1DReader.read depend on Python object
aliasing: data_dict_chan[chan] = temp_dict[chan].copy() is a SHALLOW copy
whose inner curves dict is shared with the accumulator that later
_wsxm_readstp calls keep mutating, and entry .copy() shares the entry's
direction-data dict. The embedding therefore uses an explicit heap of
the three mutable object kinds involved: direction-data dicts
(direction label -> x/y arrays), curve entries (header identity +
reference to a data dict), and curves dicts (curve index -> entry
reference). Headers and units are abstracted to the identity tag of the
header dict they were copied from, which is what the merge claims
compare; curve indices are rendered as their Python string forms. -/

/-- The x/y arrays of one direction of one curve. -/
structure XY where
  xs : List ℚ
  ys : List ℚ
deriving DecidableEq, Repr

/-- One curve entry: the identity of the header dict it was built from
and the heap reference of its direction-data dict. -/
structure PyEntry where
  src : Nat
  dataRef : Nat
deriving DecidableEq, Repr

/-- Heap of the mutable Python objects of the 1D merge. Object ids are
positions in the lists; allocation appends. -/
structure Heap where
  dds : List (List (String × XY))
  ents : List PyEntry
  cds : List (List (String × Nat))
deriving DecidableEq, Repr

def Heap.empty : Heap := { dds := [], ents := [], cds := [] }

def Heap.allocDD (h : Heap) (d : List (String × XY)) : Nat × Heap :=
  (h.dds.length, { h with dds := h.dds ++ [d] })

def Heap.allocEnt (h : Heap) (e : PyEntry) : Nat × Heap :=
  (h.ents.length, { h with ents := h.ents ++ [e] })

def Heap.allocCD (h : Heap) (d : List (String × Nat)) : Nat × Heap :=
  (h.cds.length, { h with cds := h.cds ++ [d] })

def Heap.getDD (h : Heap) (i : Nat) : List (String × XY) := h.dds.getD i []

def Heap.getEnt (h : Heap) (i : Nat) : PyEntry :=
  h.ents.getD i { src := 0, dataRef := 0 }

def Heap.getCD (h : Heap) (i : Nat) : List (String × Nat) := h.cds.getD i []

def Heap.setDD (h : Heap) (i : Nat) (d : List (String × XY)) : Heap :=
  { h with dds := h.dds.set i d }

def Heap.setCD (h : Heap) (i : Nat) (d : List (String × Nat)) : Heap :=
  { h with cds := h.cds.set i d }

/-- The per-file quantities _wsxm_readstp has computed by line 1143 of
wsxm.py, where the accumulator-merge loop begins: channel label and z
direction (both derived from the file name), the identity of this file's
header dict, the row count, the Forward-direction flag, the shared x
array z_data, the calibration z_calib and the rows of the unpacked data
matrix (ch_mat[:][i] is row i). -/
structure StpFile where
  chan : String
  zdir : String
  hdr : Nat
  xNum : Nat
  forward : Bool
  zdata : List ℚ
  zcalib : ℚ
  rows : List (List ℚ)

/-- One iteration (curve index i+1) of the accumulator-merge loop of
_wsxm_readstp (wsxm.py lines 1143-1166): create the channel slot and the
curve entry if missing, create the direction sub-dict if missing, then
unconditionally overwrite that direction's x and y arrays (y reversed
when the x scanning direction is Forward). The File path append into the
header is not modelled (headers are identity tags). -/
def readstpStep (p : StpFile) (st : Heap × List (String × Nat)) (i : Nat) :
    Heap × List (String × Nat) :=
  let h0 := st.1
  let acc0 := st.2
  let key := Nat.repr (i + 1)
  let hacc :=
    if pyMem acc0 p.chan then (h0, acc0)
    else
      let r := h0.allocCD []
      (r.2, pySet acc0 p.chan r.1)
  let h1 := hacc.1
  let acc := hacc.2
  let cid := pyGetD acc p.chan 0
  let h2 :=
    if pyMem (h1.getCD cid) key then h1
    else
      let r1 := h1.allocDD []
      let r2 := r1.2.allocEnt { src := p.hdr, dataRef := r1.1 }
      r2.2.setCD cid (pySet (r2.2.getCD cid) key r2.1)
  let eid := pyGetD (h2.getCD cid) key 0
  let dd := (h2.getEnt eid).dataRef
  let h3 :=
    if pyMem (h2.getDD dd) p.zdir then h2
    else h2.setDD dd (pySet (h2.getDD dd) p.zdir { xs := [], ys := [] })
  let yrow0 := (p.rows.getD i []).map (fun q => p.zcalib * q)
  let yrow := if p.forward then yrow0.reverse else yrow0
  let h4 := h3.setDD dd (pySet (h3.getDD dd) p.zdir { xs := p.zdata, ys := yrow })
  (h4, acc)

/-- The accumulator-merge loop of _wsxm_readstp: one readstpStep per
curve index 1..xNum, mutating the caller-supplied data_dict. -/
def wsxm_readstp (p : StpFile) (h : Heap) (acc : List (String × Nat)) :
    Heap × List (String × Nat) :=
  (List.range p.xNum).foldl (readstpStep p) (h, acc)

/-- The per-file content of a .curves file as _wsxm_readcurves parses it:
channel label, header identity, and for each curve index the direction
data of both line directions. -/
structure CurvesFile where
  chan : String
  hdr : Nat
  curves : List (String × List (String × XY))

/-- Allocate the fresh curve entries a .curves (or .cur) parse builds:
one new data dict and one new entry per curve index. -/
def buildCurveEntries (hdr : Nat) (cs : List (String × List (String × XY)))
    (h : Heap) : Heap × List (String × Nat) :=
  cs.foldl
    (fun st kv =>
      let r1 := st.1.allocDD kv.2
      let r2 := r1.2.allocEnt { src := hdr, dataRef := r1.1 }
      (r2.2, pySet st.2 kv.1 r2.1))
    (h, [])

/-- The result of _wsxm_readcurves for one file: a freshly allocated
curves dict object. -/
def buildCurves (f : CurvesFile) (h : Heap) : Heap × Nat :=
  let r := buildCurveEntries f.hdr f.curves h
  let r2 := r.1.allocCD r.2
  (r2.2, r2.1)

/-- The per-file content of a .cur file (same normalized shape as a
.curves file; parsed by _wsxm_readcur into a fresh dict). -/
structure CurFile where
  chan : String
  hdr : Nat
  curves : List (String × List (String × XY))

/-- The result of _wsxm_readcur for one file. -/
def buildCur (f : CurFile) (h : Heap) : Heap × Nat :=
  let r := buildCurveEntries f.hdr f.curves h
  let r2 := r.1.allocCD r.2
  (r2.2, r2.1)

/-- One spectroscopy file of a 1D group, dispatched on extension. -/
inductive File1D where
  | curves (f : CurvesFile)
  | stp (f : StpFile)
  | cur (f : CurFile)

/-- State of the WSxM1DReader.read loop: the object heap, the data_dict_stp
accumulator passed to every _wsxm_readstp call, and data_dict_chan. Both
dicts map channel labels to curves-dict object references, so the aliasing
created by the shallow .copy() in the source is a shared reference. -/
structure Read1DSt where
  heap : Heap
  stpAcc : List (String × Nat)
  chanDict : List (String × Nat)

/-- data_dict_chan[chan]['curves'][k] = entry.copy(): allocate a shallow
copy of the entry (sharing its direction-data dict) and store it under k
in the target curves dict. -/
def copyEntryInto (h : Heap) (tgt : Nat) (k : String) (eid : Nat) : Heap :=
  let r := h.allocEnt (h.getEnt eid)
  r.2.setCD tgt (pySet (r.2.getCD tgt) k r.1)

/-- One iteration of the WSxM1DReader.read merge loop (wsxm.py lines
158-180). A .curves file replaces every curve index it carries when the
channel already exists, else installs its dict (shallow copy sharing the
curves dict). A .stp file first merges into the data_dict_stp accumulator
via _wsxm_readstp, then fills only the missing curve indices when the
channel already exists, else installs the accumulator's curves dict
(shallow copy sharing it). A .cur file parses fresh and merges like a
.stp file's second stage. -/
def read1DStep (st : Read1DSt) (file : File1D) : Read1DSt :=
  match file with
  | File1D.curves f =>
      let r := buildCurves f st.heap
      let h := r.1
      let temp := r.2
      if pyMem st.chanDict f.chan then
        let tgt := pyGetD st.chanDict f.chan 0
        let h2 := (h.getCD temp).foldl (fun hh kv => copyEntryInto hh tgt kv.1 kv.2) h
        { heap := h2, stpAcc := st.stpAcc, chanDict := st.chanDict }
      else
        { heap := h, stpAcc := st.stpAcc, chanDict := pySet st.chanDict f.chan temp }
  | File1D.stp f =>
      let r := wsxm_readstp f st.heap st.stpAcc
      let h := r.1
      let acc := r.2
      if pyMem st.chanDict f.chan then
        let tgt := pyGetD st.chanDict f.chan 0
        let src := pyGetD acc f.chan 0
        let h2 := (h.getCD src).foldl
          (fun hh kv =>
            if pyMem (hh.getCD tgt) kv.1 then hh
            else copyEntryInto hh tgt kv.1 kv.2)
          h
        { heap := h2, stpAcc := acc, chanDict := st.chanDict }
      else
        { heap := h, stpAcc := acc,
          chanDict := pySet st.chanDict f.chan (pyGetD acc f.chan 0) }
  | File1D.cur f =>
      let r := buildCur f st.heap
      let h := r.1
      let temp := r.2
      if pyMem st.chanDict f.chan then
        let tgt := pyGetD st.chanDict f.chan 0
        let h2 := (h.getCD temp).foldl
          (fun hh kv =>
            if pyMem (hh.getCD tgt) kv.1 then hh
            else copyEntryInto hh tgt kv.1 kv.2)
          h
        { heap := h2, stpAcc := st.stpAcc, chanDict := st.chanDict }
      else
        { heap := h, stpAcc := st.stpAcc, chanDict := pySet st.chanDict f.chan temp }

/-- The WSxM1DReader.read merge over a discovered group, starting from
empty dicts (both are created afresh inside each read() call). -/
def read1DMerge (files : List File1D) : Read1DSt :=
  files.foldl read1DStep { heap := Heap.empty, stpAcc := [], chanDict := [] }

/-- The curves dict of a channel in data_dict_chan after the merge. -/
def chanCurves (st : Read1DSt) (chan : String) : List (String × Nat) :=
  st.heap.getCD (pyGetD st.chanDict chan 0)

/-- The curve entry stored for a channel and curve index. -/
def curveEntry (st : Read1DSt) (chan key : String) : PyEntry :=
  st.heap.getEnt (pyGetD (chanCurves st chan) key 0)

/-- The direction-data dict of a stored curve entry. -/
def curveData (st : Read1DSt) (chan key : String) : List (String × XY) :=
  st.heap.getDD (curveEntry st chan key).dataRef

/-! ### The mutable default argument of _wsxm_readstp -/

/-- The module-level state behind def _wsxm_readstp(filepath, data_dict={}):
the single default dict object created when the def statement ran, plus
the object heap. -/
structure StpGlobal where
  heap : Heap
  dflt : List (String × Nat)

/-- State at module import time: the default dict is empty. -/
def stpGlobalInit : StpGlobal := { heap := Heap.empty, dflt := [] }

/-- Calling _wsxm_readstp WITHOUT the data_dict argument: Python binds
the same default dict object on every such call, so every mutation the
call performs persists into later calls. Returns the new global state and
the returned data_dict (which is the default object itself). -/
def readstpNoAcc (g : StpGlobal) (p : StpFile) : StpGlobal × List (String × Nat) :=
  let r := wsxm_readstp p g.heap g.dflt
  ({ heap := r.1, dflt := r.2 }, r.2)

/-! ### Checkers, wrappers and concrete inputs used by the theorems -/

/-- The ChannelRecord shape invariant of the spec, as a decidable check:
as many axes as array dimensions, and each axis value sequence exactly as
long as the corresponding dimension. -/
def dsInvariantB (d : DSet) : Bool :=
  (d.axes.length == d.shape.length) &&
    (d.axes.zip d.shape).all (fun p => p.1.length == p.2)

/-- Placeholder dataset used for total indexing into emitted record
lists. -/
def dsDefault : DSet := { shape := [], axes := [], unit := "" }

/-- What a decoder's read() hands back: either a Python dict keyed by
channel identifiers, or a bare Python list of datasets. -/
inductive ReadOut where
  | dict (xs : List (String × DSet))
  | list (xs : List DSet)

/-- Decidable form of the output contract of the spec: the result is a
mapping whose keys are the zero-padded sequential channel identifiers in
discovery order. A bare list has no keys at all. -/
def channelKeysOk : ReadOut → Bool
  | ReadOut.dict xs => pyKeys xs == (List.range xs.length).map pad3
  | ReadOut.list _ => false

/-- IgorIBWReader.read returns the plain datasets list. -/
def igorReadOut (w : IbwForce) : ReadOut :=
  ReadOut.list (igorForceRead w)

/-- Boolean success test on a decode result. -/
def isOkE {α : Type} : Except String α → Bool
  | Except.ok _ => true
  | Except.error _ => false

/-- The error message of a failed decode, none on success. -/
def errOf {α : Type} : Except String α → Option String
  | Except.error s => some s
  | Except.ok _ => none

/-- Total projection of an ok decode result. -/
def exceptD {α : Type} (e : Except String (List (String × α))) : List (String × α) :=
  match e with
  | Except.ok x => x
  | Except.error _ => []

/-- MRC file with constant extended-header columns r, l, t, b, pixel size
1, and the given data-block shape. -/
def mkMrcFile (r l t b : ℚ) (n u v : Nat) : MrcFile :=
  { extHeader :=
      [("Scan size right", [r]), ("Scan size left", [l]),
       ("Scan size top", [t]), ("Scan size bottom", [b]),
       ("Pixel size X", [1]), ("Pixel size Y", [1])],
    nFrames := n, detU := u, detV := v }

/-- Token constructor shorthand. -/
def tk (q : ℚ) (s : String) : Tok := { num := q, str := s }

/-- Parametrized WSxM header carrying every field the image and movie
decoders read, with a two-token Z Amplitude value (number then unit) as
written by WSxM. -/
def mkWHeader (chan : String) (rows cols frames : Nat)
    (zLen zMin zMax convFact : ℚ) (zUnitTok : String) : Header :=
  [("Image Data Type [General Info]", [tk 0 "double"]),
   ("Acquisition channel [General Info]", [tk 0 chan]),
   ("X-Frequency [Control]", [tk 1 "1", tk 0 "Hz"]),
   ("Number of rows [General Info]", [tk (rows : ℚ) ""]),
   ("Number of columns [General Info]", [tk (cols : ℚ) ""]),
   ("Number of Frames [General Info]", [tk (frames : ℚ) ""]),
   ("X Amplitude [Control]", [tk 500 "500", tk 0 "nm"]),
   ("Y Amplitude [Control]", [tk 500 "500", tk 0 "nm"]),
   ("Z Amplitude [General Info]", [tk zLen "z", tk 0 zUnitTok]),
   ("Minimum [Miscellaneous]", [tk zMin ""]),
   ("Maximum [Miscellaneous]", [tk zMax ""]),
   ("Conversion Factor 00 [General Info]", [tk convFact "c", tk 0 "V"])]

/-- A WSxM header whose Number of rows field is missing: looking it up
raises KeyError inside _wsxm_readimg. -/
def exBadHeader : Header :=
  [("Image Data Type [General Info]", [tk 0 "double"]),
   ("Acquisition channel [General Info]", [tk 0 "Topography"]),
   ("X-Frequency [Control]", [tk 1 "1", tk 0 "Hz"]),
   ("Number of columns [General Info]", [tk 2 ""]),
   ("X Amplitude [Control]", [tk 500 "500", tk 0 "nm"]),
   ("Y Amplitude [Control]", [tk 500 "500", tk 0 "nm"]),
   ("Z Amplitude [General Info]", [tk 5 "5", tk 0 "nm"]),
   ("Minimum [Miscellaneous]", [tk 0 ""]),
   ("Maximum [Miscellaneous]", [tk 10 ""])]

/-- A healthy 2 x 2 topography file. -/
def exWGood : WFile :=
  { ext := ".top", header := some (mkWHeader "Topography" 2 2 1 1 0 10 2 "nm"),
    samples := [1, 2, 3, 4] }

/-- A file whose header lacks a required key. -/
def exWBad : WFile :=
  { ext := ".top", header := some exBadHeader, samples := [1, 2, 3, 4] }

/-- Igor force-curve file with no ZSnsr and no Raw channel: 3 points,
2 channels. -/
def exIbwNoZ : IbwForce :=
  { points := 3, chans := 2, val := fun r c => ((r + 10 * c : Nat) : ℚ),
    labels := ["Defl", "Amp"], units := ["m", "m"] }

/-- A second ZSnsr-less Igor force-curve file (4 points, 2 channels). -/
def exIbw1 : IbwForce :=
  { points := 4, chans := 2, val := fun r c => ((r + 7 * c : Nat) : ℚ),
    labels := ["Height", "Phase"], units := ["m", "deg"] }

/-- Igor force-curve file used for the channel-key claim. -/
def exIbwKeys : IbwForce :=
  { points := 2, chans := 2, val := fun r c => ((r + c : Nat) : ℚ),
    labels := ["ZSnsr", "Defl"], units := ["m", "m"] }

/-- Parsed .stp file carrying the approach direction of curve 1 of the
channel Normal force. -/
def stpApproach (a : Nat) (zd : List ℚ) (zc : ℚ) (r : List ℚ) : StpFile :=
  { chan := "Normal force", zdir := "approach", hdr := a, xNum := 1,
    forward := false, zdata := zd, zcalib := zc, rows := [r] }

/-- Parsed .stp file carrying the retract direction of curve 1 of the
channel Normal force. -/
def stpRetract (a : Nat) (zd : List ℚ) (zc : ℚ) (r : List ℚ) : StpFile :=
  { chan := "Normal force", zdir := "retract", hdr := a, xNum := 1,
    forward := false, zdata := zd, zcalib := zc, rows := [r] }

/-- Parsed .curves file carrying curve index 1 of the channel Normal
force. -/
def curvesOne (b : Nat) (d : List (String × XY)) : CurvesFile :=
  { chan := "Normal force", hdr := b, curves := [("1", d)] }

/-- Parsed .cur file carrying curve index 1 of the channel Normal
force. -/
def curOne (b : Nat) (d : List (String × XY)) : CurFile :=
  { chan := "Normal force", hdr := b, curves := [("1", d)] }

/-- First .stp file for the default-argument claim. -/
def exStpA : StpFile :=
  { chan := "Normal force", zdir := "approach", hdr := 1, xNum := 1,
    forward := false, zdata := [1], zcalib := 1, rows := [[1]] }

/-- Second .stp file (a different channel) for the default-argument
claim. -/
def exStpB : StpFile :=
  { chan := "Phase", zdir := "approach", hdr := 2, xNum := 1,
    forward := false, zdata := [2], zcalib := 1, rows := [[2]] }

/-- Calibration and reported unit of an image decode. -/
def imgCalibOf (r : Except String ImgChan) : Option (ℚ × String) :=
  match r with
  | Except.ok c => some (c.zCalib, c.zUnit)
  | Except.error _ => none

/-- Calibration and reported unit of a movie decode. -/
def movCalibOf (r : Except String MovChan) : Option (ℚ × String) :=
  match r with
  | Except.ok c => some (c.zCalib, c.zzUnit)
  | Except.error _ => none

/-! ## Supporting lemmas -/

theorem pyToNat_natCast (n : Nat) : pyToNat ((n : Nat) : ℚ) = n := by
  simp [pyToNat]

theorem pyIntAbs_natCast (n : Nat) : pyIntAbs ((n : Nat) : ℚ) = n := by
  simp [pyIntAbs]

/-! ## Claim theorems -/

/-- C9: requesting sample_0001.top in a directory holding sample_0001.top,
sample_0001.ch1 and other_0002.top yields the group of exactly the two
files sharing the prefix through the 4-digit run index, with the requested
file first. -/
theorem wsxm_group_discovery :
    wsxmCommonFiles "sample_0001.top"
      ["sample_0001.top", "sample_0001.ch1", "other_0002.top"] =
      some ["sample_0001.top", "sample_0001.ch1"] := by decide

/-- C4: evaluation of the code at the failing input. For a force-curve
file with 3 points and channel labels containing neither ZSnsr nor Raw,
the decode succeeds but every emitted channel carries the spectral axis
np.arange(images.shape[2]) = [0] of length 1 (the trailing segment axis),
not the index sequence 0..2 of the data length 3 that the claim (and the
spec's fallback) requires. -/
theorem igor_fallback_axis_eval :
    igorForceRead exIbwNoZ =
      [{ shape := [3], axes := [[0]], unit := "m" },
       { shape := [3], axes := [[0]], unit := "m" }] := by decide

/-- C1: evaluation of the code at the failing input. The first channel
emitted for a 4-point force-curve file without ZSnsr or Raw labels has a
1-D array of length 4 but a spectral axis holding a single value, so the
emitted record violates the shape invariant. -/
theorem shape_invariant_eval :
    (igorForceRead exIbw1).length = 2 ∧
    ((igorForceRead exIbw1).getD 0 dsDefault).shape = [4] ∧
    ((igorForceRead exIbw1).getD 0 dsDefault).axes = [[0]] ∧
    dsInvariantB ((igorForceRead exIbw1).getD 0 dsDefault) = false := by decide

/-- C8: evaluation of the code at the failing input. Calling _wsxm_readstp
twice without the data_dict argument mutates the one shared default dict:
the second call's returned dictionary still contains the first call's
channel, whereas the same second call against a fresh module state returns
only its own channel. -/
theorem readstp_default_dict_eval :
    pyKeys ((readstpNoAcc ((readstpNoAcc stpGlobalInit exStpA).1) exStpB).2) =
      ["Normal force", "Phase"] ∧
    pyKeys ((readstpNoAcc stpGlobalInit exStpB).2) = ["Phase"] := by decide

set_option maxHeartbeats 2000000 in
/-- C5: the WSxM 1D merge semantics. (1) Two .stp files providing the
approach and the retract direction of curve index 1 merge into a single
curve entry holding both directions (via the shared accumulator aliased
into data_dict_chan). (2) A curve index installed by a .curves file is
never overwritten by a later .stp or .cur file for the same index: the
entry keeps the .curves header identity and data. (3) A second .curves
file always overwrites the existing entry for the index it carries. -/
theorem stp_curves_merge_semantics
    (a1 a2 b c e : Nat) (zd1 zd2 : List ℚ) (zc1 zc2 : ℚ) (r1 r2 : List ℚ)
    (d1 d2 d3 : List (String × XY)) :
    (pyKeys (chanCurves (read1DMerge [File1D.stp (stpApproach a1 zd1 zc1 r1),
        File1D.stp (stpRetract a2 zd2 zc2 r2)]) "Normal force") = ["1"] ∧
     curveData (read1DMerge [File1D.stp (stpApproach a1 zd1 zc1 r1),
        File1D.stp (stpRetract a2 zd2 zc2 r2)]) "Normal force" "1" =
       [("approach", { xs := zd1, ys := r1.map (fun q => zc1 * q) }),
        ("retract", { xs := zd2, ys := r2.map (fun q => zc2 * q) })]) ∧
    ((curveEntry (read1DMerge [File1D.curves (curvesOne b d1),
        File1D.stp (stpApproach a1 zd1 zc1 r1)]) "Normal force" "1").src = b ∧
     curveData (read1DMerge [File1D.curves (curvesOne b d1),
        File1D.stp (stpApproach a1 zd1 zc1 r1)]) "Normal force" "1" = d1) ∧
    ((curveEntry (read1DMerge [File1D.curves (curvesOne b d1),
        File1D.cur (curOne c d3)]) "Normal force" "1").src = b ∧
     curveData (read1DMerge [File1D.curves (curvesOne b d1),
        File1D.cur (curOne c d3)]) "Normal force" "1" = d1) ∧
    ((curveEntry (read1DMerge [File1D.curves (curvesOne b d1),
        File1D.curves (curvesOne e d2)]) "Normal force" "1").src = e ∧
     curveData (read1DMerge [File1D.curves (curvesOne b d1),
        File1D.curves (curvesOne e d2)]) "Normal force" "1" = d2) := by
  have e1 : read1DStep { heap := Heap.empty, stpAcc := [], chanDict := [] }
      (File1D.stp (stpApproach a1 zd1 zc1 r1)) =
      { heap := { dds := [[("approach", { xs := zd1, ys := r1.map (fun q => zc1 * q) })]],
                  ents := [{ src := a1, dataRef := 0 }],
                  cds := [[("1", 0)]] },
        stpAcc := [("Normal force", 0)], chanDict := [("Normal force", 0)] } := by rfl
  have e2 : read1DStep
      { heap := { dds := [[("approach", { xs := zd1, ys := r1.map (fun q => zc1 * q) })]],
                  ents := [{ src := a1, dataRef := 0 }],
                  cds := [[("1", 0)]] },
        stpAcc := [("Normal force", 0)], chanDict := [("Normal force", 0)] }
      (File1D.stp (stpRetract a2 zd2 zc2 r2)) =
      { heap := { dds := [[("approach", { xs := zd1, ys := r1.map (fun q => zc1 * q) }),
                           ("retract", { xs := zd2, ys := r2.map (fun q => zc2 * q) })]],
                  ents := [{ src := a1, dataRef := 0 }],
                  cds := [[("1", 0)]] },
        stpAcc := [("Normal force", 0)], chanDict := [("Normal force", 0)] } := by rfl
  have m1 : read1DMerge [File1D.stp (stpApproach a1 zd1 zc1 r1),
      File1D.stp (stpRetract a2 zd2 zc2 r2)] =
      read1DStep (read1DStep { heap := Heap.empty, stpAcc := [], chanDict := [] }
        (File1D.stp (stpApproach a1 zd1 zc1 r1))) (File1D.stp (stpRetract a2 zd2 zc2 r2)) := rfl
  rw [e1, e2] at m1
  have c1 : read1DStep { heap := Heap.empty, stpAcc := [], chanDict := [] }
      (File1D.curves (curvesOne b d1)) =
      { heap := { dds := [d1], ents := [{ src := b, dataRef := 0 }], cds := [[("1", 0)]] },
        stpAcc := [], chanDict := [("Normal force", 0)] } := by rfl
  have c2 : read1DStep
      { heap := { dds := [d1], ents := [{ src := b, dataRef := 0 }], cds := [[("1", 0)]] },
        stpAcc := [], chanDict := [("Normal force", 0)] }
      (File1D.stp (stpApproach a1 zd1 zc1 r1)) =
      { heap := { dds := [d1, [("approach", { xs := zd1, ys := r1.map (fun q => zc1 * q) })]],
                  ents := [{ src := b, dataRef := 0 }, { src := a1, dataRef := 1 }],
                  cds := [[("1", 0)], [("1", 1)]] },
        stpAcc := [("Normal force", 1)], chanDict := [("Normal force", 0)] } := by rfl
  have m2 : read1DMerge [File1D.curves (curvesOne b d1),
      File1D.stp (stpApproach a1 zd1 zc1 r1)] =
      read1DStep (read1DStep { heap := Heap.empty, stpAcc := [], chanDict := [] }
        (File1D.curves (curvesOne b d1))) (File1D.stp (stpApproach a1 zd1 zc1 r1)) := rfl
  rw [c1, c2] at m2
  have c3 : read1DStep
      { heap := { dds := [d1], ents := [{ src := b, dataRef := 0 }], cds := [[("1", 0)]] },
        stpAcc := [], chanDict := [("Normal force", 0)] }
      (File1D.cur (curOne c d3)) =
      { heap := { dds := [d1, d3],
                  ents := [{ src := b, dataRef := 0 }, { src := c, dataRef := 1 }],
                  cds := [[("1", 0)], [("1", 1)]] },
        stpAcc := [], chanDict := [("Normal force", 0)] } := by rfl
  have m3 : read1DMerge [File1D.curves (curvesOne b d1), File1D.cur (curOne c d3)] =
      read1DStep (read1DStep { heap := Heap.empty, stpAcc := [], chanDict := [] }
        (File1D.curves (curvesOne b d1))) (File1D.cur (curOne c d3)) := rfl
  rw [c1, c3] at m3
  have c4 : read1DStep
      { heap := { dds := [d1], ents := [{ src := b, dataRef := 0 }], cds := [[("1", 0)]] },
        stpAcc := [], chanDict := [("Normal force", 0)] }
      (File1D.curves (curvesOne e d2)) =
      { heap := { dds := [d1, d2],
                  ents := [{ src := b, dataRef := 0 }, { src := e, dataRef := 1 },
                           { src := e, dataRef := 1 }],
                  cds := [[("1", 2)], [("1", 1)]] },
        stpAcc := [], chanDict := [("Normal force", 0)] } := by rfl
  have m4 : read1DMerge [File1D.curves (curvesOne b d1), File1D.curves (curvesOne e d2)] =
      read1DStep (read1DStep { heap := Heap.empty, stpAcc := [], chanDict := [] }
        (File1D.curves (curvesOne b d1))) (File1D.curves (curvesOne e d2)) := rfl
  rw [c1, c4] at m4
  rw [m1, m2, m3, m4]
  exact ⟨⟨rfl, rfl⟩, ⟨rfl, rfl⟩, ⟨rfl, rfl⟩, ⟨rfl, rfl⟩⟩

/-- C6: counterexample. Decoding a 2D WSxM file whose header lacks the
required Number of rows field aborts with the propagated KeyError while
the file handle opened by the read loop is still open (one leaked
handle), so handles are not closed on every exit path. -/
theorem handle_leak_on_keyerror :
    errOf (wsxm2DRead [exWBad]).1 =
      some "KeyError: Number of rows [General Info]" ∧
    (wsxm2DRead [exWBad]).2 = 1 := by decide

/-- C7: counterexample. The Igor reader hands back a bare Python list of
datasets, not a mapping keyed by zero-padded channel identifiers. -/
theorem channel_keys_claim_false :
    channelKeysOk (igorReadOut exIbwKeys) = false := by decide

/-- C2: counterexample. For right-left = 4, top-bottom = 3 and 2 x 2
frames, handedness right produces the array shape (3, 4, 2, 2) — x is
|top-bottom| in the code — not the (4, 3, 2, 2) the claim states. -/
theorem mrc_handedness_claim_false :
    mrcShape exMrc "right" = some [3, 4, 2, 2] ∧
    mrcShape exMrc "right" ≠ some [4, 3, 2, 2] := by
  with_unfolding_all decide

/-- C3: evaluation of the code at the failing input. With a buffer of 10
frames against a declared 4 x 3 scan, the reshape ValueError is caught
and the metadata dictionary is stored on the instance, but read() then
hands the absent (None) array to the dataset sink and the call raises
instead of returning a metadata-only record. -/
theorem mrc_truncated_eval :
    (mrcRead exMrcTrunc "right" none).1 =
      some [("Scan size right", [4]), ("Scan size left", [0]),
            ("Scan size top", [3]), ("Scan size bottom", [0]),
            ("Pixel size X", [1]), ("Pixel size Y", [1])] ∧
    errOf (mrcRead exMrcTrunc "right" none).2 =
      some "sink error: cannot build a chunked dataset from data=None" := by
  with_unfolding_all decide

/-- C2: amended claim. With right-left = 4, top-bottom = 3 and 2 x 2
detector frames, handedness right yields the array shape (3, 4, 2, 2)
and handedness left yields (4, 3, 2, 2) — the code maps |top-bottom| to
the leading axis under right handedness — and every other handedness
value makes the call raise (the unrecognized value only prints a message,
leaves reshape_target unbound and the following np.reshape raises a
NameError that the ValueError handler does not catch). -/
theorem mrc_handedness_amended :
    mrcShape exMrc "right" = some [3, 4, 2, 2] ∧
    mrcShape exMrc "left" = some [4, 3, 2, 2] ∧
    ∀ hand : String, hand ≠ "right" → hand ≠ "left" →
      errOf (mrcRead exMrc hand none).2 =
        some "NameError: cannot access local variable reshape_target" := by
  refine ⟨by with_unfolding_all decide, by with_unfolding_all decide, ?_⟩
  intro hand h1 h2
  simp [mrcRead, h1, h2, errOf]

theorem mrc_handedness_amended_witness :
    ("up" : String) ≠ "right" ∧ ("up" : String) ≠ "left" ∧
    errOf (mrcRead exMrc "up" none).2 =
      some "NameError: cannot access local variable reshape_target" :=
  ⟨by decide, by decide, mrc_handedness_amended.2.2 "up" (by decide) (by decide)⟩

theorem wsxm2DDecodeFile_handles (f : WFile) :
    (wsxm2DDecodeFile f).2 =
      (if isOkE (wsxm2DDecodeFile f).1 = true then 0 else 1) := by
  rcases h : wsxm2DDecodeCore f with e | ds <;> simp [wsxm2DDecodeFile, h, isOkE]

theorem wsxm2DReadAux_handles :
    ∀ (files : List WFile) (nn : Nat) (acc : List (String × DSet)),
      (wsxm2DReadAux files nn acc).2 =
        (if isOkE (wsxm2DReadAux files nn acc).1 = true then 0 else 1) := by
  intro files
  induction files with
  | nil => intro nn acc; simp [wsxm2DReadAux, isOkE]
  | cons f rest ih =>
      intro nn acc
      by_cases hg : f.ext = ".gsi"
      · simp only [wsxm2DReadAux, hg, if_pos]
        exact ih nn acc
      · have hD := wsxm2DDecodeFile_handles f
        rcases hE : wsxm2DDecodeFile f with ⟨res, lk⟩
        rw [hE] at hD
        cases res with
        | error e =>
            simp only [wsxm2DReadAux, hg, if_neg, hE]
            simpa [isOkE] using hD
        | ok ds =>
            simp only [wsxm2DReadAux, hg, if_neg, hE]
            exact ih (nn + 1) (pySet acc (pad3 nn) ds)

/-- C6: amended claim. In WSxM2DReader.read the file handle of the file
being decoded is closed exactly when its decode completes: a read that
returns normally leaves no handle open, and a read aborted by a parse
exception (for example a KeyError from _wsxm_readimg) exits with exactly
one handle still open. -/
theorem wsxm2D_handle_accounting (files : List WFile) :
    (wsxm2DRead files).2 =
      (if isOkE (wsxm2DRead files).1 = true then 0 else 1) :=
  wsxm2DReadAux_handles files 0 []

/-- C10: counterexample. A non-Amplitude channel whose declared Z
amplitude is 0 gets calibration 1 (the zero-data special case), not
z_len/(z_max - z_min) = 0 as the claim states for all channels with other
labels. -/
theorem amplitude_calibration_claim_false :
    imgCalibOf (wsxm_readimg (mkWHeader "Topography" 2 2 1 0 0 10 2 "nm")
        [1, 2, 3, 4]) = some (1, "nm") ∧
    ((0 : ℚ) / (10 - 0)) ≠ 1 := by
  with_unfolding_all decide

theorem toDigitsCore_digits :
    ∀ (n : Nat), 0 < n → ∀ (f : Nat) (ds : List Char), n < f →
      Nat.toDigitsCore 10 f n ds = ((Nat.digits 10 n).map Nat.digitChar).reverse ++ ds := by
  intro n
  induction n using Nat.strong_induction_on with
  | _ n ih =>
    intro hn f ds hf
    match f, hf with
    | f + 1, hf =>
      rw [Nat.digits_def' (by norm_num : (1 : Nat) < 10) hn]
      by_cases h0 : n / 10 = 0
      · simp [Nat.toDigitsCore, h0]
      · have hlt : n / 10 < n := Nat.div_lt_self hn (by norm_num)
        have hp : 0 < n / 10 := Nat.pos_of_ne_zero h0
        have hf' : n / 10 < f := lt_of_lt_of_le hlt (Nat.lt_succ_iff.mp hf)
        simp only [Nat.toDigitsCore, h0, if_neg]
        rw [ih (n / 10) hlt hp f (Nat.digitChar (n % 10) :: ds) hf']
        simp [List.reverse_cons, List.append_assoc]

theorem repr_toList (n : Nat) (hn : 0 < n) :
    (Nat.repr n).toList = ((Nat.digits 10 n).map Nat.digitChar).reverse := by
  show (Nat.toDigits 10 n).asString.toList = _
  rw [Nat.toDigits, toDigitsCore_digits n hn (n + 1) [] (Nat.lt_succ_self n)]
  simp [List.asString, String.toList]

theorem digitChar_injOn :
    ∀ a < 10, ∀ b < 10, Nat.digitChar a = Nat.digitChar b → a = b := by decide

theorem digitChar_ne_zeroChar : ∀ a < 10, a ≠ 0 → Nat.digitChar a ≠ '0' := by decide

theorem map_digitChar_inj :
    ∀ (l1 l2 : List Nat), (∀ d ∈ l1, d < 10) → (∀ d ∈ l2, d < 10) →
      l1.map Nat.digitChar = l2.map Nat.digitChar → l1 = l2 := by
  intro l1
  induction l1 with
  | nil =>
      intro l2 _ _ h
      cases l2 with
      | nil => rfl
      | cons b t => simp at h
  | cons a t ih =>
      intro l2 h1 h2 h
      cases l2 with
      | nil => simp at h
      | cons b t2 =>
          simp only [List.map_cons, List.cons.injEq] at h
          have hab : a = b :=
            digitChar_injOn a (h1 a (List.mem_cons_self a t)) b
              (h2 b (List.mem_cons_self b t2)) h.1
          have ht : t = t2 :=
            ih t2 (fun d hd => h1 d (List.mem_cons_of_mem a hd))
              (fun d hd => h2 d (List.mem_cons_of_mem b hd)) h.2
          rw [hab, ht]

theorem nat_repr_ne_nil (n : Nat) : (Nat.repr n).toList ≠ [] := by
  rcases Nat.eq_zero_or_pos n with hn | hn
  · subst hn; decide
  · rw [repr_toList n hn]
    have : Nat.digits 10 n ≠ [] :=
      Nat.digits_ne_nil_iff_ne_zero.mpr (Nat.pos_iff_ne_zero.mp hn)
    simp [this]

theorem repr_head_zero {m : Nat} {rest : List Char}
    (h : (Nat.repr m).toList = '0' :: rest) : m = 0 ∧ rest = [] := by
  rcases Nat.eq_zero_or_pos m with hm | hm
  · subst hm
    constructor
    · rfl
    · have : ('0' :: ([] : List Char)) = '0' :: rest := h ▸ rfl
      exact (List.cons.injEq _ _ _ _ ▸ this).2.symm
  · exfalso
    rw [repr_toList m hm] at h
    have hne : Nat.digits 10 m ≠ [] :=
      Nat.digits_ne_nil_iff_ne_zero.mpr (Nat.pos_iff_ne_zero.mp hm)
    have hlast := Nat.getLast_digit_ne_zero 10 (Nat.pos_iff_ne_zero.mp hm)
    have hhead : (((Nat.digits 10 m).map Nat.digitChar).reverse).head? = some '0' := by
      rw [h]; rfl
    rw [List.head?_reverse] at hhead
    have hmapne : (Nat.digits 10 m).map Nat.digitChar ≠ [] := by simp [hne]
    rw [List.getLast?_eq_getLast _ hmapne, Option.some.injEq] at hhead
    rw [List.getLast_map] at hhead
    exact digitChar_ne_zeroChar _ (Nat.digits_lt_base (by norm_num)
      (List.getLast_mem hne)) (hlast) hhead

theorem nat_repr_inj {m n : Nat} (h : Nat.repr m = Nat.repr n) : m = n := by
  have ht : (Nat.repr m).toList = (Nat.repr n).toList := by rw [h]
  rcases Nat.eq_zero_or_pos m with hm | hm <;> rcases Nat.eq_zero_or_pos n with hn | hn
  · rw [hm, hn]
  · subst hm
    exact absurd (repr_head_zero (ht.symm.trans rfl)).1 (Nat.pos_iff_ne_zero.mp hn)
  · subst hn
    exact absurd (repr_head_zero (ht.trans rfl)).1 (Nat.pos_iff_ne_zero.mp hm)
  · rw [repr_toList m hm, repr_toList n hn] at ht
    have hmap := List.reverse_injective ht
    have hd : Nat.digits 10 m = Nat.digits 10 n :=
      map_digitChar_inj _ _ (fun d hd => Nat.digits_lt_base (by norm_num) hd)
        (fun d hd => Nat.digits_lt_base (by norm_num) hd) hmap
    have := congrArg (Nat.ofDigits 10) hd
    rwa [Nat.ofDigits_digits, Nat.ofDigits_digits] at this

theorem pad_repr_inj :
    ∀ (a : Nat) {b m n : Nat},
      List.replicate a '0' ++ (Nat.repr m).toList =
        List.replicate b '0' ++ (Nat.repr n).toList → m = n := by
  intro a
  induction a with
  | zero =>
      intro b m n h
      cases b with
      | zero =>
          simp only [List.replicate, List.nil_append] at h
          exact nat_repr_inj (String.ext h)
      | succ b =>
          simp only [List.replicate, List.nil_append, List.cons_append] at h
          obtain ⟨hm0, hrest⟩ := repr_head_zero h
          exfalso
          have := List.append_eq_nil.mp hrest
          exact nat_repr_ne_nil n this.2
  | succ a ih =>
      intro b m n h
      cases b with
      | zero =>
          simp only [List.replicate, List.nil_append, List.cons_append] at h
          obtain ⟨hn0, hrest⟩ := repr_head_zero h.symm
          exfalso
          have := List.append_eq_nil.mp hrest
          exact nat_repr_ne_nil m this.2
      | succ b =>
          simp only [List.replicate, List.cons_append, List.cons.injEq] at h
          exact ih h.2

theorem pad3_inj {m n : Nat} (h : pad3 m = pad3 n) : m = n := by
  simp only [pad3] at h
  have hd : "Channel_".toList ++
      (List.replicate (3 - (Nat.repr m).length) '0' ++ (Nat.repr m).toList) =
      "Channel_".toList ++
      (List.replicate (3 - (Nat.repr n).length) '0' ++ (Nat.repr n).toList) :=
    congrArg String.data h
  exact pad_repr_inj _ (List.append_cancel_left hd)

theorem pySet_append {α : Type} (acc : List (String × α)) (k : String) (v : α)
    (h : pyMem acc k = false) : pySet acc k v = acc ++ [(k, v)] := by
  induction acc with
  | nil => rfl
  | cons p t ih =>
      simp only [pyMem, List.any_cons, Bool.or_eq_false_iff,
        decide_eq_false_iff_not] at h
      simp only [pySet, if_neg h.1]
      rw [ih (by simpa [pyMem] using h.2)]
      simp

theorem pad3_fresh {nn : Nat} {acc : List (String × DSet)}
    (hk : pyKeys acc = (List.range nn).map pad3) : pyMem acc (pad3 nn) = false := by
  rcases hb : pyMem acc (pad3 nn) with _ | _
  · rfl
  · exfalso
    simp only [pyMem, List.any_eq_true, decide_eq_true_eq] at hb
    obtain ⟨p, hp, he⟩ := hb
    have hmem : p.1 ∈ pyKeys acc := List.mem_map_of_mem Prod.fst hp
    rw [hk, List.mem_map] at hmem
    obtain ⟨i, hi, hpi⟩ := hmem
    rw [List.mem_range] at hi
    have : i = nn := pad3_inj (by rw [hpi, he])
    omega

theorem wsxm2DReadAux_keys :
    ∀ (files : List WFile) (nn : Nat) (acc : List (String × DSet)),
      pyKeys acc = (List.range nn).map pad3 →
      isOkE (wsxm2DReadAux files nn acc).1 = true →
      pyKeys (exceptD (wsxm2DReadAux files nn acc).1) =
        (List.range (nn + nonGsiCount files)).map pad3 := by
  intro files
  induction files with
  | nil =>
      intro nn acc hk _
      simpa [wsxm2DReadAux, nonGsiCount, exceptD] using hk
  | cons f rest ih =>
      intro nn acc hk hok
      by_cases hg : f.ext = ".gsi"
      · have hcnt : nonGsiCount (f :: rest) = nonGsiCount rest := by
          simp [nonGsiCount, hg]
        rw [show wsxm2DReadAux (f :: rest) nn acc = wsxm2DReadAux rest nn acc by
          simp [wsxm2DReadAux, hg]] at hok ⊢
        rw [hcnt]
        exact ih nn acc hk hok
      · have hcnt : nonGsiCount (f :: rest) = nonGsiCount rest + 1 := by
          simp [nonGsiCount, hg, List.filter]
        rcases hD : wsxm2DDecodeFile f with ⟨res, lk⟩
        cases res with
        | error e =>
            exfalso
            rw [show wsxm2DReadAux (f :: rest) nn acc = (Except.error e, lk) by
              simp [wsxm2DReadAux, hg, hD]] at hok
            simp [isOkE] at hok
        | ok ds =>
            have hstep : wsxm2DReadAux (f :: rest) nn acc =
                wsxm2DReadAux rest (nn + 1) (pySet acc (pad3 nn) ds) := by
              simp [wsxm2DReadAux, hg, hD]
            rw [hstep] at hok ⊢
            have hk2 : pyKeys (pySet acc (pad3 nn) ds) =
                (List.range (nn + 1)).map pad3 := by
              rw [pySet_append acc (pad3 nn) ds (pad3_fresh hk)]
              have hsplit : pyKeys (acc ++ [(pad3 nn, ds)]) =
                  pyKeys acc ++ [pad3 nn] := by simp [pyKeys]
              rw [hsplit, hk, List.range_succ]
              simp
            have hres := ih (nn + 1) (pySet acc (pad3 nn) ds) hk2 hok
            rw [hres, hcnt]
            have harith : nn + 1 + nonGsiCount rest = nn + (nonGsiCount rest + 1) := by
              omega
            rw [harith]

theorem channelDict_keys_of_ok (e : Except String DSet) (g : DSet → List (String × DSet))
    (hg : ∀ d, pyKeys (g d) = [pad3 0])
    (hok : isOkE (Except.map g e) = true) :
    pyKeys (exceptD (Except.map g e)) = [pad3 0] := by
  rcases e with err | d
  · simp [Except.map, isOkE] at hok
  · simpa [Except.map, exceptD] using hg d

theorem mrcRead_ok_keys (f : MrcFile) (hand : String) (sps : Option ℚ)
    (hok : isOkE (mrcRead f hand sps).2 = true) :
    pyKeys (exceptD (mrcRead f hand sps).2) = [pad3 0] := by
  have hpad : pad3 0 = "Channel_000" := by decide
  revert hok
  unfold mrcRead
  repeat' split
  all_goals intro hok
  all_goals first
    | exact channelDict_keys_of_ok _ _ (fun d => by simp [pyKeys, hpad]) hok
    | simp [isOkE] at hok

/-- C7: amended claim. The WSxM 2D reader keys its emitted channels with
the zero-padded sequential identifiers Channel_000, Channel_001, ... in
discovery order (one per successfully decoded non-gsi file of the group),
and an MRC read that completes returns the single-entry mapping keyed
Channel_000; the Igor reader, by contrast, returns a bare list of
datasets with no channel keys. -/
theorem channel_key_scheme_amended :
    (∀ files : List WFile, isOkE (wsxm2DRead files).1 = true →
      pyKeys (exceptD (wsxm2DRead files).1) =
        (List.range (nonGsiCount files)).map pad3) ∧
    (∀ (f : MrcFile) (hand : String) (sps : Option ℚ),
      isOkE (mrcRead f hand sps).2 = true →
      pyKeys (exceptD (mrcRead f hand sps).2) = [pad3 0]) ∧
    (∀ w : IbwForce, igorReadOut w = ReadOut.list (igorForceRead w)) := by
  refine ⟨?_, ?_, ?_⟩
  · intro files hok
    simpa using wsxm2DReadAux_keys files 0 [] (by simp [pyKeys]) hok
  · exact mrcRead_ok_keys
  · intro w
    rfl

theorem channel_key_scheme_witness :
    isOkE (wsxm2DRead [exWGood]).1 = true ∧
    pyKeys (exceptD (wsxm2DRead [exWGood]).1) =
      (List.range (nonGsiCount [exWGood])).map pad3 :=
  ⟨by decide, channel_key_scheme_amended.1 [exWGood] (by decide)⟩

set_option maxHeartbeats 1000000 in
/-- C10: amended claim. In both the 2D image decoder and the movie
decoder, a channel labelled Amplitude whose declared Z-amplitude unit
(token [1] of the two-token Z Amplitude value) is not V has its linear
calibration divided by Conversion Factor 00 and its reported unit forced
to V; every other channel (other label, or unit already V) keeps the
unmodified calibration and the declared unit — where the unmodified
calibration is z_len/(z_max - z_min) for nonzero declared z_len and 1 in
the zero-data special case. -/
theorem amplitude_unit_correction_amended
    (chan : String) (rows cols frames : Nat) (zLen zMin zMax convFact : ℚ)
    (zUnitTok : String) (samples : List ℚ)
    (hs : rows * cols ≤ samples.length)
    (hm : frames * (rows * cols) ≤ samples.length) :
    (chan = "Amplitude" → zUnitTok ≠ "V" →
      imgCalibOf (wsxm_readimg
          (mkWHeader chan rows cols frames zLen zMin zMax convFact zUnitTok) samples) =
        some ((if zLen = 0 then 1 else zLen / (zMax - zMin)) / convFact, "V") ∧
      movCalibOf (wsxm_readmovie
          (mkWHeader chan rows cols frames zLen zMin zMax convFact zUnitTok) samples) =
        some ((if zLen = 0 then 1 else zLen / (zMax - zMin)) / convFact, "V")) ∧
    (chan ≠ "Amplitude" ∨ zUnitTok = "V" →
      imgCalibOf (wsxm_readimg
          (mkWHeader chan rows cols frames zLen zMin zMax convFact zUnitTok) samples) =
        some ((if zLen = 0 then 1 else zLen / (zMax - zMin)), zUnitTok) ∧
      movCalibOf (wsxm_readmovie
          (mkWHeader chan rows cols frames zLen zMin zMax convFact zUnitTok) samples) =
        some ((if zLen = 0 then 1 else zLen / (zMax - zMin)), zUnitTok)) := by
  have hns : ¬ (samples.length < rows * cols) := Nat.not_lt.mpr hs
  have hnm : ¬ (samples.length < frames * (rows * cols)) := Nat.not_lt.mpr hm
  constructor
  · intro hA hV
    subst hA
    constructor
    · simp [wsxm_readimg, mkWHeader, hget, pyGet?, pyMem, tokFirst, tokLast, joinTokens,
            tk, wsxmDataTypesGet, wsxmDataTypes, imgCalibOf, pyToNat_natCast,
            List.length_take, Nat.min_eq_left hs, hV, hns, Except.instMonad, Except.bind,
            Except.pure, tokD]
    · simp [wsxm_readmovie, mkWHeader, hget, pyGet?, pyMem, tokFirst, tokLast, joinTokens,
            tk, wsxmDataTypesGet, wsxmDataTypes, movCalibOf, pyToNat_natCast,
            List.length_take, Nat.min_eq_left hm, hV, hnm, Except.instMonad, Except.bind,
            Except.pure, tokD]
  · intro h
    rcases h with h | h
    · constructor
      · simp [wsxm_readimg, mkWHeader, hget, pyGet?, pyMem, tokFirst, tokLast, joinTokens,
              tk, wsxmDataTypesGet, wsxmDataTypes, imgCalibOf, pyToNat_natCast,
              List.length_take, Nat.min_eq_left hs, h, hns, Except.instMonad, Except.bind,
              Except.pure, tokD]
      · simp [wsxm_readmovie, mkWHeader, hget, pyGet?, pyMem, tokFirst, tokLast,
              joinTokens, tk, wsxmDataTypesGet, wsxmDataTypes, movCalibOf, pyToNat_natCast,
              List.length_take, Nat.min_eq_left hm, h, hnm, Except.instMonad, Except.bind,
              Except.pure, tokD]
    · subst h
      by_cases hc : chan = "Amplitude"
      · subst hc
        constructor <;>
          simp [wsxm_readimg, wsxm_readmovie, mkWHeader, hget, pyGet?, pyMem, tokFirst,
                tokLast, joinTokens, tk, wsxmDataTypesGet, wsxmDataTypes, imgCalibOf,
                movCalibOf, pyToNat_natCast, List.length_take, Nat.min_eq_left hs,
                Nat.min_eq_left hm, hns, hnm, Except.instMonad, Except.bind,
                Except.pure, tokD]
      · constructor <;>
          simp [wsxm_readimg, wsxm_readmovie, mkWHeader, hget, pyGet?, pyMem, tokFirst,
                tokLast, joinTokens, tk, wsxmDataTypesGet, wsxmDataTypes, imgCalibOf,
                movCalibOf, pyToNat_natCast, List.length_take, Nat.min_eq_left hs,
                Nat.min_eq_left hm, hc, hns, hnm, Except.instMonad, Except.bind,
                Except.pure, tokD]

theorem amplitude_unit_correction_witness :
    2 * 2 ≤ ([1, 2, 3, 4] : List ℚ).length ∧
    1 * (2 * 2) ≤ ([1, 2, 3, 4] : List ℚ).length ∧
    (("Amplitude" : String) = "Amplitude" → ("nm" : String) ≠ "V" →
      imgCalibOf (wsxm_readimg (mkWHeader "Amplitude" 2 2 1 5 0 10 2 "nm") [1, 2, 3, 4]) =
        some ((if (5 : ℚ) = 0 then 1 else (5 : ℚ) / (10 - 0)) / 2, "V") ∧
      movCalibOf (wsxm_readmovie (mkWHeader "Amplitude" 2 2 1 5 0 10 2 "nm") [1, 2, 3, 4]) =
        some ((if (5 : ℚ) = 0 then 1 else (5 : ℚ) / (10 - 0)) / 2, "V")) :=
  ⟨by decide, by decide,
    (amplitude_unit_correction_amended "Amplitude" 2 2 1 5 0 10 2 "nm" [1, 2, 3, 4]
      (by decide) (by decide)).1⟩

end SciFiReaders
